import Mathlib

/-!
# Rsamtools: batch pool, mate iteration drivers and BamFile handle lifecycle

A shallow embedding of `src/bam_mate_iter.cpp` and `src/bamfile.c`.

Conventions of the embedding.

* C pointers are `Option`: `none` is `NULL`.
* C `int` values are `Int`; no arithmetic in the embedded code can overflow
  (the only arithmetic is the loop counter `++i`, bounded by `result->n`).
* Calls into htslib / R that acquire or release a resource are recorded, in
  program order, in an explicit trace of events that the embedded function
  returns next to its result.
* `Rf_error` never returns (it unwinds to the R top level); a function that
  can reach it returns a result that is either a value or the error raised.
* A read through a `NULL` or out-of-range pointer has no defined behaviour;
  the embedded function then returns `none` (batch pool) or ends in
  `Res.undefined` (BamFile handle).
-/

namespace Rsamtools

/-! ## bam_mate_iter.cpp : the batch pool `bam_mates_t` -/

/-- One element of the `bams` array of a batch: `NULL`, a pointer to a live
record `bam1_t` (named by a number), or the indeterminate contents of a slot
that `Realloc` has added and nobody has written yet. -/
inductive Slot where
  | null : Slot
  | record (id : Nat) : Slot
  | indeterminate : Slot
  deriving DecidableEq, Repr

/-- The struct `bam_mates_t`: fields `n`, `mated`, `bams` as the source uses
them (`bams` is a pointer to an array of record pointers). -/
structure bam_mates_t where
  n : Int
  mated : Int
  bams : Option (List Slot)
  deriving DecidableEq, Repr

/-- The value of R's `NA_INTEGER` (`INT_MIN`). -/
def NA_INTEGER : Int := -2147483648

/-- Events of `bam_mate_iter.cpp`, in program order. -/
inductive MEv where
  /-- The call `bam_destroy1(p)`. -/
  | bam_destroy1 (p : Slot) : MEv
  /-- The call `Free(result->bams)`; the flag tells whether the pointer was non-NULL. -/
  | Free_bams (nonnull : Bool) : MEv
  /-- The call `Realloc(result->bams, n, const bam1_t *)`. -/
  | Realloc_bams (n : Int) : MEv
  deriving DecidableEq, Repr

/-- `bam_mates_new`: `n = 0`, `mated = NA_INTEGER`, `bams = NULL`. -/
def bam_mates_new : bam_mates_t :=
  { n := 0, mated := NA_INTEGER, bams := none }

/-- The loop `for (int i = 0; i < result->n; ++i) { bam_destroy1(result->bams[i]);
result->bams[i] = NULL; }` of `bam_mates_realloc`, with `k` iterations left to
run from index `i` (the body never writes `result->n`). `bam_destroy1(NULL)`
is a no-op of htslib and `bam_destroy1` of a live record frees it; on a slot
that was never written the call reads through an uninitialised pointer, so
there is no result. -/
def bam_mates_realloc_loop :
    Nat → Nat → bam_mates_t → List MEv → Option (bam_mates_t × List MEv)
  | 0, _, result, tr => some (result, tr)
  | k + 1, i, result, tr =>
    match result.bams with
    | none => none
    | some a =>
      match a.get? i with
      | none => none
      | some Slot.indeterminate => none
      | some p =>
        bam_mates_realloc_loop k (i + 1)
          { result with bams := some (a.set i Slot.null) }
          (tr ++ [MEv.bam_destroy1 p])

/-- The array `Realloc(p, n, const bam1_t *)` hands back: the first `n` old
elements are kept, added elements are indeterminate. A `NULL` pointer is
reallocated like an empty block. -/
def Realloc (p : Option (List Slot)) (n : Nat) : List Slot :=
  (p.getD []).take n ++ List.replicate (n - (p.getD []).length) Slot.indeterminate

/-- `bam_mates_realloc(result, n, mated)`. A negative `n` is no size
(`Realloc` cannot serve it), so the embedding gives no result there. -/
def bam_mates_realloc (result : bam_mates_t) (n mated : Int) :
    Option (bam_mates_t × List MEv) :=
  match bam_mates_realloc_loop result.n.toNat 0 result [] with
  | none => none
  | some (r, tr) =>
    if n = 0 then
      some ({ n := n, mated := mated, bams := none },
            tr ++ [MEv.Free_bams r.bams.isSome])
    else if n < 0 then none
    else
      some ({ n := n, mated := mated, bams := some (Realloc r.bams n.toNat) },
            tr ++ [MEv.Realloc_bams n])

/-- The slots behind `bams` (none when the pointer is `NULL`). -/
def bam_mates_t.slots (m : bam_mates_t) : List Slot := m.bams.getD []

/-- A batch holds `n` records: `n` is not negative and counts the slots of
`bams`, and every slot has been written (it is NULL or points to a record). -/
def bam_mates_t.holds (m : bam_mates_t) : Prop :=
  0 ≤ m.n ∧ m.slots.length = m.n.toNat ∧ ∀ s, s ∈ m.slots → s ≠ Slot.indeterminate

instance (m : bam_mates_t) : Decidable m.holds := by
  unfold bam_mates_t.holds; infer_instance

/-- The batch after its caller has stored the pointers `filled` in the slots
of `bams` (`mates->bams[i] = ...` for every `i`), as `yield` does after a
resize. Nothing is stored through a NULL `bams`. -/
def bam_mates_t.fill (m : bam_mates_t) (filled : List Slot) : bam_mates_t :=
  { m with bams := m.bams.map (fun _ => filled) }

/-- The arguments of the `bam_destroy1` calls of a trace, in order. -/
def destroyed : List MEv → List Slot
  | [] => []
  | MEv.bam_destroy1 p :: tr => p :: destroyed tr
  | _ :: tr => destroyed tr

/-! ## bam_mate_iter.cpp : the iterator facade and its two drivers -/

/-- The index handle `bam_index_t *` behind a pointer, named by a number. -/
structure bam_index_t where
  id : Nat
  deriving DecidableEq, Repr

/-- The part of the class `BamIterator` this file touches: the flag
`iter_done`, and the rest of the object (`st`), whose type is left open
because the class is declared in `BamIterator.h`. -/
structure BamIterator (σ : Type) where
  iter_done : Bool
  st : σ

/-- The struct `_bam_mate_iter_t { BamIterator *b_iter; }` behind a pointer
`bam_mate_iter_t`; `addr` is the value of that pointer. -/
structure bam_mate_iter_t (σ : Type) where
  addr : Nat
  b_iter : BamIterator σ

/-- The members of `BamIterator`, `BamRangeIterator` and `BamFileIterator`
that the file calls and does not define: the virtual `yield(fb, mates)` and the
two constructors. `φ` is the state of the stream `bamFile`. -/
structure BamIteratorOps (φ σ : Type) where
  yield : φ → BamIterator σ → bam_mates_t → φ × BamIterator σ × bam_mates_t
  BamRangeIterator : Option bam_index_t → Int → Int → Int → BamIterator σ
  BamFileIterator : Option bam_index_t → BamIterator σ

/-- Events of the two drivers, in program order. -/
inductive DEv where
  /-- The call `new BamRangeIterator(bindex, tid, beg, end)`. -/
  | BamRangeIterator_new : DEv
  /-- The call `new BamFileIterator(bindex)`. -/
  | BamFileIterator_new : DEv
  /-- The call `iter->b_iter->yield(fb, mates)`, with the value `iter_done` has when it is made. -/
  | yield (iter_done : Bool) : DEv
  /-- The call `func(mates, data)`, with the batch it is given. -/
  | func (mates : bam_mates_t) : DEv
  | bam_mate_iter_destroy : DEv
  | bam_mates_destroy : DEv
  deriving DecidableEq, Repr

/-- What `bam_mate_read` leaves behind: its return value and the objects it
has updated through its pointer arguments. -/
structure ReadResult (φ σ : Type) where
  ret : Int
  fb : φ
  iter : bam_mate_iter_t σ
  mates : bam_mates_t
  trace : List DEv

/-- `bam_mate_read(fb, iter, mates)`: one `yield`, then `return mates->n`. -/
def bam_mate_read {φ σ : Type} (ops : BamIteratorOps φ σ) (fb : φ)
    (iter : bam_mate_iter_t σ) (mates : bam_mates_t) : ReadResult φ σ :=
  let y := ops.yield fb iter.b_iter mates
  { ret := y.2.2.n
    fb := y.1
    iter := { iter with b_iter := y.2.1 }
    mates := y.2.2
    trace := [DEv.yield iter.b_iter.iter_done] }

/-- `bam_mate_range_iter_new(bindex, tid, beg, end)`; `addr` is the block
that `Calloc` hands back. -/
def bam_mate_range_iter_new {φ σ : Type} (ops : BamIteratorOps φ σ) (addr : Nat)
    (bindex : Option bam_index_t) (tid beg end_ : Int) : bam_mate_iter_t σ :=
  { addr := addr, b_iter := ops.BamRangeIterator bindex tid beg end_ }

/-- `bam_mate_file_iter_new(bindex)`; `addr` is the block that `Calloc` hands back. -/
def bam_mate_file_iter_new {φ σ : Type} (ops : BamIteratorOps φ σ) (addr : Nat)
    (bindex : Option bam_index_t) : bam_mate_iter_t σ :=
  { addr := addr, b_iter := ops.BamFileIterator bindex }

/-- What `bam_fetch_mate` leaves behind: its return value `n_rec`, the stream,
the caller's `data` as the callbacks have left it, and the trace. -/
structure FetchResult (φ δ : Type) where
  n_rec : Int
  bf : φ
  data : δ
  trace : List DEv

/-- The loop `while ((n_rec = bam_mate_read(bf, iter, mates) > 0)) func(mates, data);`
and the three statements after it. `>` binds tighter than `=`, so `n_rec`
receives the value of the comparison, 1 or 0, and the loop runs while that is
not 0. `fuel` bounds the number of reads. -/
def bam_fetch_mate_loop {φ σ δ : Type} (ops : BamIteratorOps φ σ)
    (func : bam_mates_t → δ → δ) :
    Nat → φ → bam_mate_iter_t σ → bam_mates_t → δ → List DEv → Option (FetchResult φ δ)
  | 0, _, _, _, _, _ => none
  | fuel + 1, bf, iter, mates, data, tr =>
    let r := bam_mate_read ops bf iter mates
    let n_rec : Int := if r.ret > 0 then 1 else 0
    if n_rec ≠ 0 then
      bam_fetch_mate_loop ops func fuel r.fb r.iter r.mates (func r.mates data)
        (tr ++ r.trace ++ [DEv.func r.mates])
    else
      some { n_rec := n_rec, bf := r.fb, data := data,
             trace := tr ++ r.trace ++ [DEv.bam_mate_iter_destroy, DEv.bam_mates_destroy] }

/-- `bam_fetch_mate(bf, idx, tid, beg, end, data, func)`. -/
def bam_fetch_mate {φ σ δ : Type} (ops : BamIteratorOps φ σ) (fuel : Nat) (addr : Nat)
    (bf : φ) (idx : Option bam_index_t) (tid beg end_ : Int) (data : δ)
    (func : bam_mates_t → δ → δ) : Option (FetchResult φ δ) :=
  let mates := bam_mates_new
  let iter := bam_mate_range_iter_new ops addr idx tid beg end_
  bam_fetch_mate_loop ops func fuel bf iter mates data [DEv.BamRangeIterator_new]

/-- What `samread_mate` leaves behind: its return value, the stream, the
caller's slot `*iter_p`, the batch, and the trace. -/
structure SamreadResult (φ σ : Type) where
  ret : Int
  fb : φ
  iter_p : Option (bam_mate_iter_t σ)
  mates : bam_mates_t
  trace : List DEv

/-- `samread_mate(fb, bindex, iter_p, mates)`; `addr` is the block `Calloc`
would hand to `bam_mate_file_iter_new`. -/
def samread_mate {φ σ : Type} (ops : BamIteratorOps φ σ) (addr : Nat) (fb : φ)
    (bindex : Option bam_index_t) (iter_p : Option (bam_mate_iter_t σ))
    (mates : bam_mates_t) : SamreadResult φ σ :=
  let made : bam_mate_iter_t σ × List DEv :=
    match iter_p with
    | none => (bam_mate_file_iter_new ops addr bindex, [DEv.BamFileIterator_new])
    | some it => (it, [])
  let iter : bam_mate_iter_t σ :=
    { made.1 with b_iter := { made.1.b_iter with iter_done := false } }
  let r := bam_mate_read ops fb iter mates
  { ret := r.ret, fb := r.fb, iter_p := some r.iter, mates := r.mates,
    trace := made.2 ++ r.trace }

/-- The stream, facade and batch as they stand after `j` successive calls of
`bam_mate_read`. -/
def after_reads {φ σ : Type} (ops : BamIteratorOps φ σ) :
    Nat → φ → bam_mate_iter_t σ → bam_mates_t → φ × bam_mate_iter_t σ × bam_mates_t
  | 0, fb, iter, mates => (fb, iter, mates)
  | j + 1, fb, iter, mates =>
    let r := bam_mate_read ops fb iter mates
    after_reads ops j r.fb r.iter r.mates

/-- The result of read number `j` (counted from 0) of a run of successive reads. -/
def nth_read {φ σ : Type} (ops : BamIteratorOps φ σ) (j : Nat) (fb : φ)
    (iter : bam_mate_iter_t σ) (mates : bam_mates_t) : ReadResult φ σ :=
  let s := after_reads ops j fb iter mates
  bam_mate_read ops s.1 s.2.1 s.2.2

/-- The number of `yield` calls of a trace. -/
def yield_count : List DEv → Nat
  | [] => 0
  | DEv.yield _ :: tr => yield_count tr + 1
  | _ :: tr => yield_count tr

/-- The events of a run of `bam_fetch_mate_loop` that stops at read `k`
(counted from 0): each of the reads before it is followed by its callback,
read `k` is followed by the two destroy calls. -/
def fetch_events {φ σ : Type} (ops : BamIteratorOps φ σ) :
    Nat → φ → bam_mate_iter_t σ → bam_mates_t → List DEv
  | 0, fb, iter, mates =>
    (bam_mate_read ops fb iter mates).trace
      ++ [DEv.bam_mate_iter_destroy, DEv.bam_mates_destroy]
  | k + 1, fb, iter, mates =>
    let r := bam_mate_read ops fb iter mates
    r.trace ++ [DEv.func r.mates] ++ fetch_events ops k r.fb r.iter r.mates

/-- An iterator for examples: its state is the list of batch sizes still to
come; `yield` resizes the batch to the next size (to 0 once the list is used
up or the iterator is done) and marks the iterator done when nothing is left. -/
def listOps : BamIteratorOps Unit (List Int) where
  yield := fun fb it _ =>
    match it.iter_done, it.st with
    | false, c :: cs =>
      (fb, { iter_done := false, st := cs },
        { n := c, mated := 1,
          bams := if c = 0 then none else some (List.replicate c.toNat (Slot.record 7)) })
    | _, _ => (fb, { iter_done := true, st := [] }, { n := 0, mated := 0, bams := none })
  BamRangeIterator := fun _ _ _ _ => { iter_done := false, st := [2, 1] }
  BamFileIterator := fun _ => { iter_done := false, st := [2, 2, 1] }

/-! ## bamfile.c : the BamFile handle -/

/-- The header `bam_hdr_t` behind a pointer: a name for the object and its
field `n_targets`. -/
structure bam_hdr_t where
  id : Nat
  n_targets : Int
  deriving DecidableEq, Repr

/-- The enumerators of htslib's `htsExactFormat` that `_bamfile_open_r` tells
apart; every other enumerator is `other`. -/
inductive htsExactFormat where
  | sam : htsExactFormat
  | bam : htsExactFormat
  | cram : htsExactFormat
  | other (code : Nat) : htsExactFormat
  deriving DecidableEq, Repr

/-- An alignment record `bam1_t` as stored in a stream: a name for the record
and the length of its encoded block. -/
structure bam1_t where
  id : Nat
  block_len : Nat
  deriving DecidableEq, Repr

/-- What stands at one position of a stream: a record, or bytes that do not
decode to one. -/
inductive Item where
  | record (b : bam1_t) : Item
  | damaged : Item
  deriving DecidableEq, Repr

/-- An open stream (`samfile_t` / `htsFile`). `header` is the field
`sfile->header` that `_bam_tryopen` tests; `on_disk` is what `sam_hdr_read`
returns for this stream; `format` is `hts_get_format(file)->format`; `items`
and `pos` are the contents and the read position. -/
structure samfile_t where
  id : Nat
  header : Option bam_hdr_t
  on_disk : Option bam_hdr_t
  format : htsExactFormat
  items : List Item
  pos : Nat
  deriving DecidableEq, Repr

/-- The struct `_BAM_FILE` (declared in `bamfile.h`), with the fields the
source reads and writes. `iter` and `pbuffer` are pointers to objects this
file only destroys; they are named by numbers. -/
structure _BAM_FILE where
  file : Option samfile_t
  index : Option bam_index_t
  header : Option bam_hdr_t
  iter : Option Nat
  pbuffer : Option Nat
  pos0 : Int
  irange0 : Int
  deriving DecidableEq, Repr

/-- The block `Calloc(1, _BAM_FILE)` returns: all bytes zero. -/
def Calloc_BAM_FILE : _BAM_FILE :=
  { file := none, index := none, header := none, iter := none, pbuffer := none,
    pos0 := 0, irange0 := 0 }

/-- The messages of the `Rf_error` calls of `bamfile.c`. -/
inductive Err where
  /-- Line 18: "failed to open SAM/BAM file". -/
  | failed_to_open_SAM_BAM_file : Err
  /-- Lines 21 and 87: "SAM/BAM header missing or empty". -/
  | header_missing_or_empty : Err
  /-- Line 32: "failed to load BAM index". -/
  | failed_to_load_BAM_index : Err
  /-- Line 96: "'filename' is not a BAM file". -/
  | not_a_BAM_file : Err
  /-- Line 109: "failed to open BAM index". -/
  | failed_to_open_BAM_index : Err
  /-- Line 125: "'file1' must be a character(1) path to a valid bam file". -/
  | file1_must_be_character1 : Err
  /-- Lines 131 and 137: "failed to open file". -/
  | failed_to_open_file : Err
  /-- Line 143: "failed to write header to output file". -/
  | failed_to_write_header : Err
  /-- The error of `_checkext`. -/
  | incorrect_instance : Err
  deriving DecidableEq, Repr

/-- Events of `bamfile.c`, in program order. Streams, headers and indexes are
named by their `id`. -/
inductive Ev where
  /-- `Calloc(1, _BAM_FILE)`. -/
  | Calloc_bfile : Ev
  /-- `Free(bfile)`. -/
  | Free_bfile : Ev
  /-- `samopen(filename, filemode, aux)` and the stream it returned, if any. -/
  | samopen (filename : String) (filemode : String) (got : Option Nat) : Ev
  /-- `samclose(f)`. -/
  | samclose (f : Nat) : Ev
  /-- `sam_close(f)`. -/
  | sam_close (f : Nat) : Ev
  /-- `sam_hdr_read(f)` and the header it returned, if any. -/
  | sam_hdr_read (f : Nat) (got : Option Nat) : Ev
  /-- `sam_hdr_write(f, h)`. -/
  | sam_hdr_write (f : Nat) (h : Option Nat) : Ev
  /-- `bam_hdr_destroy(h)`; a NULL argument is a no-op of htslib. -/
  | bam_hdr_destroy (h : Option Nat) : Ev
  /-- `bam_index_load(indexname)` and the index it returned, if any. -/
  | bam_index_load (indexname : String) (got : Option Nat) : Ev
  /-- `hts_idx_load2(file, indexname)` and the index it returned, if any. -/
  | hts_idx_load2 (indexname : String) (got : Option Nat) : Ev
  /-- `bam_index_destroy(i)`. -/
  | bam_index_destroy (i : Nat) : Ev
  /-- `bam_mate_iter_destroy(it)`. -/
  | bam_mate_iter_destroy (it : Nat) : Ev
  /-- `pileup_pbuffer_destroy(p)`. -/
  | pileup_pbuffer_destroy (p : Nat) : Ev
  /-- `bam_init1()`. -/
  | bam_init1 : Ev
  /-- `sam_read1(f, header, bam)`. -/
  | sam_read1 (f : Nat) : Ev
  /-- `bam_destroy1(bam)` of the probe's scratch record. -/
  | bam_destroy1 : Ev
  /-- `Rf_error(...)`: control leaves the function here. -/
  | Rf_error (e : Err) : Ev
  deriving DecidableEq, Repr

/-- How a call ends: with a value, in `Rf_error`, or (`undefined`) in a read
through a NULL pointer, for which C defines no behaviour. -/
inductive Res (α : Type) where
  | ok (a : α) : Res α
  | Rf_error (e : Err) : Res α
  | undefined : Res α
  deriving DecidableEq, Repr

/-- A run of a function: the events it caused, and how it ended. -/
structure Run (α : Type) where
  trace : List Ev
  res : Res α
  deriving DecidableEq, Repr

/-- The library calls whose outcome the file system decides. -/
structure Env where
  samopen : String → String → Option samfile_t
  bam_index_load : String → Option bam_index_t
  hts_idx_load2 : Option String → String → Option bam_index_t
  sam_hdr_write : samfile_t → Option bam_hdr_t → Int

/-- `_bam_tryopen(filename, filemode, aux)`. The C function returns a pointer,
so the value is an `Option`. -/
def _bam_tryopen (env : Env) (filename filemode : String) : Run (Option samfile_t) :=
  match env.samopen filename filemode with
  | none =>
    { trace := [Ev.samopen filename filemode none,
                Ev.Rf_error Err.failed_to_open_SAM_BAM_file]
      res := Res.Rf_error Err.failed_to_open_SAM_BAM_file }
  | some sfile =>
    match sfile.header with
    | none =>
      { trace := [Ev.samopen filename filemode (some sfile.id), Ev.samclose sfile.id,
                  Ev.Rf_error Err.header_missing_or_empty]
        res := Res.Rf_error Err.header_missing_or_empty }
    | some _ =>
      { trace := [Ev.samopen filename filemode (some sfile.id)]
        res := Res.ok (some sfile) }

/-- `_bam_tryindexload(file, indexname)`. The C function returns a pointer, so
the value is an `Option`. `file` is `none` when the caller passes its `cfile`
without having set it. -/
def _bam_tryindexload (env : Env) (file : Option String) (indexname : String) :
    Run (Option bam_index_t) :=
  match env.bam_index_load indexname with
  | some index =>
    { trace := [Ev.bam_index_load indexname (some index.id)]
      res := Res.ok (some index) }
  | none =>
    match env.hts_idx_load2 file indexname with
    | some index =>
      { trace := [Ev.bam_index_load indexname none,
                  Ev.hts_idx_load2 indexname (some index.id)]
        res := Res.ok (some index) }
    | none =>
      { trace := [Ev.bam_index_load indexname none, Ev.hts_idx_load2 indexname none,
                  Ev.Rf_error Err.failed_to_load_BAM_index]
        res := Res.Rf_error Err.failed_to_load_BAM_index }

/-- `_bamfile_close(ext)`, on the handle `BAMFILE(ext)`. -/
def _bamfile_close (bfile : _BAM_FILE) : _BAM_FILE × List Ev :=
  let t_file := match bfile.file with
    | some f => [Ev.samclose f.id]
    | none => []
  let t_index := match bfile.index with
    | some i => [Ev.bam_index_destroy i.id]
    | none => []
  let t_header := match bfile.header with
    | some h => [Ev.bam_hdr_destroy (some h.id)]
    | none => []
  let t_iter := match bfile.iter with
    | some it => [Ev.bam_mate_iter_destroy it]
    | none => []
  let t_pbuffer := match bfile.pbuffer with
    | some p => [Ev.pileup_pbuffer_destroy p]
    | none => []
  ({ bfile with file := none, index := none, header := none, iter := none,
                pbuffer := none },
   t_file ++ t_index ++ t_header ++ t_iter ++ t_pbuffer)

/-- `_bamfile_open_r(filename, indexname, filemode)`. `filename` and
`indexname` are character vectors (`Rf_length` is the length, `STRING_ELT(x, 0)`
the head); `filemode` is element 0 of the mode vector. `_hts_utilities_tell`
and `bam_tell` both report the read position of the stream. -/
def _bamfile_open_r (env : Env) (filename indexname : List String) (filemode : String) :
    Run _BAM_FILE :=
  let bfile : _BAM_FILE := { Calloc_BAM_FILE with file := none }
  let opened : Run (_BAM_FILE × Option String) :=
    match filename with
    | [] => { trace := [Ev.Calloc_bfile], res := Res.ok (bfile, none) }
    | cfile :: _ =>
      match _bam_tryopen env cfile filemode with
      | ⟨t, Res.Rf_error e⟩ => { trace := Ev.Calloc_bfile :: t, res := Res.Rf_error e }
      | ⟨t, Res.undefined⟩ => { trace := Ev.Calloc_bfile :: t, res := Res.undefined }
      | ⟨t, Res.ok none⟩ => { trace := Ev.Calloc_bfile :: t, res := Res.undefined }
      | ⟨t, Res.ok (some file)⟩ =>
        let header := file.on_disk
        let t1 := Ev.Calloc_bfile :: t ++ [Ev.sam_hdr_read file.id (header.map (·.id))]
        let missing : Bool :=
          match header with
          | none => true
          | some h => h.n_targets == 0
        if missing then
          { trace := t1 ++ [Ev.sam_close file.id, Ev.bam_hdr_destroy (header.map (·.id)),
                            Ev.Free_bfile, Ev.Rf_error Err.header_missing_or_empty]
            res := Res.Rf_error Err.header_missing_or_empty }
        else
          let format := file.format
          if format ≠ htsExactFormat.sam ∧ format ≠ htsExactFormat.bam
              ∧ format ≠ htsExactFormat.cram then
            { trace := t1 ++ [Ev.sam_close file.id, Ev.bam_hdr_destroy (header.map (·.id)),
                              Ev.Free_bfile, Ev.Rf_error Err.not_a_BAM_file]
              res := Res.Rf_error Err.not_a_BAM_file }
          else
            { trace := t1
              res := Res.ok ({ bfile with file := some file, header := header,
                                          pos0 := file.pos, irange0 := 0 }, some cfile) }
  match opened with
  | ⟨t, Res.Rf_error e⟩ => { trace := t, res := Res.Rf_error e }
  | ⟨t, Res.undefined⟩ => { trace := t, res := Res.undefined }
  | ⟨t, Res.ok (bfile, cfile)⟩ =>
    match indexname with
    | [] =>
      { trace := t
        res := Res.ok { bfile with index := none, iter := none, pbuffer := none } }
    | cindex :: _ =>
      match _bam_tryindexload env cfile cindex with
      | ⟨t2, Res.Rf_error e⟩ => { trace := t ++ t2, res := Res.Rf_error e }
      | ⟨t2, Res.undefined⟩ => { trace := t ++ t2, res := Res.undefined }
      | ⟨t2, Res.ok none⟩ =>
        match bfile.file with
        | none => { trace := t ++ t2, res := Res.undefined }
        | some f =>
          { trace := t ++ t2 ++ [Ev.samclose f.id, Ev.Free_bfile,
                                 Ev.Rf_error Err.failed_to_open_BAM_index]
            res := Res.Rf_error Err.failed_to_open_BAM_index }
      | ⟨t2, Res.ok (some index)⟩ =>
        { trace := t ++ t2
          res := Res.ok { bfile with index := some index, iter := none, pbuffer := none } }

/-- `_bamfile_open_w(file0, file1)`. `file1` is a character vector; of `file0`
the function reads element 0 without a test, and `file0` is that element. -/
def _bamfile_open_w (env : Env) (file0 : String) (file1 : List String) : Run _BAM_FILE :=
  match file1 with
  | [] =>
    { trace := [Ev.Rf_error Err.file1_must_be_character1]
      res := Res.Rf_error Err.file1_must_be_character1 }
  | cfile1 :: _ =>
    let cfile0 := file0
    match _bam_tryopen env cfile1 "r" with
    | ⟨t, Res.Rf_error e⟩ => { trace := t, res := Res.Rf_error e }
    | ⟨t, Res.undefined⟩ => { trace := t, res := Res.undefined }
    | ⟨t, Res.ok none⟩ =>
      { trace := t ++ [Ev.Rf_error Err.failed_to_open_file]
        res := Res.Rf_error Err.failed_to_open_file }
    | ⟨t, Res.ok (some fin)⟩ =>
      let header := fin.on_disk
      let t1 := t ++ [Ev.sam_hdr_read fin.id (header.map (·.id)), Ev.sam_close fin.id]
      match _bam_tryopen env cfile0 "wb" with
      | ⟨t2, Res.Rf_error e⟩ => { trace := t1 ++ t2, res := Res.Rf_error e }
      | ⟨t2, Res.undefined⟩ => { trace := t1 ++ t2, res := Res.undefined }
      | ⟨t2, Res.ok none⟩ =>
        { trace := t1 ++ t2 ++ [Ev.bam_hdr_destroy (header.map (·.id)),
                                Ev.Rf_error Err.failed_to_open_file]
          res := Res.Rf_error Err.failed_to_open_file }
      | ⟨t2, Res.ok (some fout)⟩ =>
        let t3 := t1 ++ t2 ++ [Ev.sam_hdr_write fout.id (header.map (·.id))]
        if env.sam_hdr_write fout header < 0 then
          { trace := t3 ++ [Ev.bam_hdr_destroy (header.map (·.id)), Ev.sam_close fout.id,
                            Ev.Rf_error Err.failed_to_write_header]
            res := Res.Rf_error Err.failed_to_write_header }
        else
          { trace := t3 ++ [Ev.Calloc_bfile]
            res := Res.ok { Calloc_BAM_FILE with file := some fout, header := header,
                                                 pos0 := fout.pos, irange0 := 0 } }

/-- The external pointer `ext` of the R layer: `addr` is
`R_ExternalPtrAddr(ext)`, which the macro `BAMFILE(ext)` casts to `BAM_FILE`;
`tag_ok` tells whether `ext` is an external pointer tagged `BAMFILE_TAG`. -/
structure SEXP where
  tag_ok : Bool
  addr : Option _BAM_FILE
  deriving DecidableEq, Repr

/-- Modelled from the spec: `_checkext` is defined in `utilities.c`, which is
not among the sources. The spec (section 9) describes it as the check of the
"global tag/identifier used to validate handle type": it raises an error when
the tag is not the expected one and does nothing otherwise. -/
def _checkext (ext : SEXP) : Run Unit :=
  if ext.tag_ok then { trace := [], res := Res.ok () }
  else { trace := [Ev.Rf_error Err.incorrect_instance],
         res := Res.Rf_error Err.incorrect_instance }

/-- What `bamfile_close` leaves behind. -/
structure CloseResult where
  ext : SEXP
  trace : List Ev
  res : Res Unit
  deriving DecidableEq, Repr

/-- `bamfile_close(ext)`: `_checkext`, then `_bamfile_close`, which reads
through `BAMFILE(ext)`. -/
def bamfile_close (ext : SEXP) : CloseResult :=
  match _checkext ext with
  | ⟨t, Res.Rf_error e⟩ => { ext := ext, trace := t, res := Res.Rf_error e }
  | ⟨t, Res.undefined⟩ => { ext := ext, trace := t, res := Res.undefined }
  | ⟨t, Res.ok _⟩ =>
    match ext.addr with
    | none => { ext := ext, trace := t, res := Res.undefined }
    | some bfile =>
      let c := _bamfile_close bfile
      { ext := { ext with addr := some c.1 }, trace := t ++ c.2, res := Res.ok () }

/-- Modelled from the spec: `_hts_utilities_tell` is defined in
`hts_utilities.c`, which is not among the sources; section 6 has
`tell(stream_handle) -> position`. -/
def _hts_utilities_tell (file : samfile_t) : Int := file.pos

/-- Modelled from the spec: `_hts_utilities_seek(file, offset, SEEK_SET)` is
defined in `hts_utilities.c`, which is not among the sources; section 6 has
`seek(stream_handle, position)`, an operation without a failure case. -/
def _hts_utilities_seek (file : samfile_t) (offset : Int) : samfile_t :=
  { file with pos := offset.toNat }

/-- The outcome of `sam_read1`: the return code, the record stored in `bam`
(if one was read) and the stream. -/
structure Read1 where
  ret : Int
  bam : Option bam1_t
  file : samfile_t
  deriving DecidableEq, Repr

/-- The code `sam_read1` returns when it has read record `b` from a stream of
the given format. htslib documents the return value of `sam_read1` as `>= 0`
when a record was read; the value is the one of the reader for the format: the
SAM text parser reports success as 0, the binary readers report the size of
the record read, here `4 + block_len`. -/
def record_code (format : htsExactFormat) (b : bam1_t) : Int :=
  match format with
  | htsExactFormat.sam => 0
  | _ => 4 + (b.block_len : Int)

/-- Modelled from the spec: `sam_read1(file, header, bam)` is the library's
`read_next_record(stream_handle) -> AlignmentRecord | end_of_data` of section 6.
The spec does not give the integer that the probe compares with 0; it is that
of htslib: `>= 0` when a record was read (`record_code`), -1 at the end of the
stream, `< -1` on an error. At the end of the items the call returns -1 and
leaves the position; on a record it stores the record and moves to the next
position; on bytes that do not decode it returns -2 after having consumed
them. -/
def sam_read1 (file : samfile_t) (_header : Option bam_hdr_t) : Read1 :=
  match file.items[file.pos]? with
  | none => { ret := -1, bam := none, file := file }
  | some (Item.record b) =>
    { ret := record_code file.format b, bam := some b,
      file := { file with pos := file.pos + 1 } }
  | some Item.damaged =>
    { ret := -2, bam := none, file := { file with pos := file.pos + 1 } }

/-- What `bamfile_isincomplete` leaves behind: the external pointer (and the
handle and stream behind it), the trace, and the logical it returns. -/
structure ProbeResult where
  ext : SEXP
  trace : List Ev
  res : Res Bool
  deriving DecidableEq, Repr

/-- `bamfile_isincomplete(ext)`. -/
def bamfile_isincomplete (ext : SEXP) : ProbeResult :=
  match ext.addr with
  | none => { ext := ext, trace := [], res := Res.ok false }
  | some bfile =>
    match _checkext ext with
    | ⟨t, Res.Rf_error e⟩ => { ext := ext, trace := t, res := Res.Rf_error e }
    | ⟨t, Res.undefined⟩ => { ext := ext, trace := t, res := Res.undefined }
    | ⟨t, Res.ok _⟩ =>
      match bfile.file with
      | none => { ext := ext, trace := t, res := Res.ok false }
      | some file =>
        let offset := _hts_utilities_tell file
        let r := sam_read1 file bfile.header
        let ans : Bool := decide (r.ret > 0)
        let file2 := _hts_utilities_seek r.file offset
        { ext := { ext with addr := some { bfile with file := some file2 } }
          trace := t ++ [Ev.bam_init1, Ev.sam_read1 file.id, Ev.bam_destroy1]
          res := Res.ok ans }

/-- The stream position behind an external pointer, when a stream is open. -/
def SEXP.tell (ext : SEXP) : Option Int :=
  match ext.addr with
  | none => none
  | some bfile => bfile.file.map _hts_utilities_tell

/-- The outcomes (return code and record) of `N` successive real reads
`sam_read1` from a stream. -/
def read_records : Nat → samfile_t → Option bam_hdr_t → List (Int × Option bam1_t)
  | 0, _, _ => []
  | N + 1, file, header =>
    let r := sam_read1 file header
    (r.ret, r.bam) :: read_records N r.file header

/-- The outcomes of `N` successive real reads through an external pointer
(none when no stream is open). -/
def SEXP.read_records (ext : SEXP) (N : Nat) : List (Int × Option bam1_t) :=
  match ext.addr with
  | none => []
  | some bfile =>
    match bfile.file with
    | none => []
    | some file => Rsamtools.read_records N file bfile.header

/-- The external pointer after `k` successive calls of `bamfile_isincomplete`. -/
def probes : Nat → SEXP → SEXP
  | 0, ext => ext
  | k + 1, ext => probes k (bamfile_isincomplete ext).ext

/-- Whether a trace closes stream `f` (`samclose` or `sam_close`). -/
def closes_stream (f : Nat) (tr : List Ev) : Bool :=
  tr.contains (Ev.samclose f) || tr.contains (Ev.sam_close f)

/-- Whether a trace destroys header `h`. -/
def destroys_header (h : Nat) (tr : List Ev) : Bool :=
  tr.contains (Ev.bam_hdr_destroy (some h))

/-- Whether a trace frees the handle block. -/
def frees_bfile (tr : List Ev) : Bool :=
  tr.contains Ev.Free_bfile

/-- The events of a trace that come before its first `Rf_error`. -/
def before_error : List Ev → List Ev
  | [] => []
  | Ev.Rf_error _ :: _ => []
  | e :: tr => e :: before_error tr

/-! ## Concrete inputs used by the examples -/

/-- A BAM stream with a header of one target and two records. -/
def exampleStream : samfile_t :=
  { id := 1
    header := some { id := 10, n_targets := 1 }
    on_disk := some { id := 11, n_targets := 1 }
    format := htsExactFormat.bam
    items := [Item.record { id := 7, block_len := 36 },
              Item.record { id := 8, block_len := 40 }]
    pos := 0 }

/-- A SAM text stream with the same header and records. -/
def exampleSamStream : samfile_t :=
  { exampleStream with id := 3, format := htsExactFormat.sam }

/-- A file system where every stream opens as `exampleSamStream`. -/
def envSam : Env :=
  { samopen := fun _ _ => some exampleSamStream
    bam_index_load := fun _ => none
    hts_idx_load2 := fun _ _ => none
    sam_hdr_write := fun _ _ => 0 }

/-- A file system where every stream opens as `exampleStream` and no index can
be loaded. -/
def envNoIndex : Env :=
  { samopen := fun _ _ => some exampleStream
    bam_index_load := fun _ => none
    hts_idx_load2 := fun _ _ => none
    sam_hdr_write := fun _ _ => 0 }

/-- A file system where streams open for reading as `exampleStream` and
nothing can be opened in any other mode. -/
def envNoOutput : Env :=
  { samopen := fun _ filemode => if filemode = "r" then some exampleStream else none
    bam_index_load := fun _ => none
    hts_idx_load2 := fun _ _ => none
    sam_hdr_write := fun _ _ => 0 }

/-- A file system where every stream opens and writing a header fails. -/
def envNoWrite : Env :=
  { samopen := fun _ filemode =>
      if filemode = "r" then some exampleStream else some { exampleStream with id := 2 }
    bam_index_load := fun _ => none
    hts_idx_load2 := fun _ _ => none
    sam_hdr_write := fun _ _ => -1 }

/-! ## Theorems: the batch pool -/

theorem destroyed_append (a b : List MEv) :
    destroyed (a ++ b) = destroyed a ++ destroyed b := by
  induction a with
  | nil => rfl
  | cons e a ih => cases e <;> simp [destroyed, ih]

theorem destroyed_map (l : List Slot) : destroyed (l.map MEv.bam_destroy1) = l := by
  induction l with
  | nil => rfl
  | cons p l ih => simp [destroyed, ih]

/-- The destroy loop over a block `pre ++ suf` of written slots, entered at
index `pre.length` with `k ≤ suf.length` iterations to run, destroys the next
`k` slots in order and nulls them. -/
theorem bam_mates_realloc_loop_spec (k : Nat) :
    ∀ (pre suf : List Slot) (r : bam_mates_t) (tr : List MEv),
      r.bams = some (pre ++ suf) → k ≤ suf.length →
      (∀ s, s ∈ suf → s ≠ Slot.indeterminate) →
      bam_mates_realloc_loop k pre.length r tr =
        some ({ r with bams := some (pre ++ List.replicate k Slot.null ++ suf.drop k) },
              tr ++ (suf.take k).map MEv.bam_destroy1) := by
  induction k with
  | zero =>
    intro pre suf r tr hb _ _
    cases r
    simp_all [bam_mates_realloc_loop]
  | succ k ih =>
    intro pre suf r tr hb hk hw
    cases suf with
    | nil => simp at hk
    | cons p suf =>
      have hget : (pre ++ p :: suf).get? pre.length = some p := by
        rw [List.get?_eq_getElem?, List.getElem?_append_right (le_refl _)]
        simp
      have hset : (pre ++ p :: suf).set pre.length Slot.null
          = (pre ++ [Slot.null]) ++ suf := by
        simp [List.set_append]
      have hlen : (pre ++ [Slot.null]).length = pre.length + 1 := by simp
      have hp : p ≠ Slot.indeterminate := hw p (List.mem_cons_self _ _)
      have hnext := ih (pre ++ [Slot.null]) suf
        { r with bams := some ((pre ++ [Slot.null]) ++ suf) }
        (tr ++ [MEv.bam_destroy1 p]) rfl (by simpa using hk)
        (fun s hs => hw s (List.mem_cons_of_mem _ hs))
      rw [hlen] at hnext
      cases p with
      | indeterminate => exact absurd rfl hp
      | null =>
        simp only [bam_mates_realloc_loop, hb, hget, hset, hnext]
        simp [List.replicate_succ]
      | record id =>
        simp only [bam_mates_realloc_loop, hb, hget, hset, hnext]
        simp [List.replicate_succ]

/-- The destroy loop has no result when one of the slots it is to visit was
never written. -/
theorem bam_mates_realloc_loop_unwritten (k : Nat) :
    ∀ (pre suf : List Slot) (r : bam_mates_t) (tr : List MEv),
      r.bams = some (pre ++ suf) →
      (∃ i, i < k ∧ suf[i]? = some Slot.indeterminate) →
      bam_mates_realloc_loop k pre.length r tr = none := by
  induction k with
  | zero =>
    intro pre suf r tr _ hi
    obtain ⟨i, hi, _⟩ := hi
    omega
  | succ k ih =>
    intro pre suf r tr hb hi
    cases suf with
    | nil =>
      have hget : (pre ++ ([] : List Slot)).get? pre.length = none := by
        rw [List.get?_eq_getElem?, List.getElem?_eq_none]
        simp
      simp only [bam_mates_realloc_loop, hb, hget]
    | cons p suf =>
      have hget : (pre ++ p :: suf).get? pre.length = some p := by
        rw [List.get?_eq_getElem?, List.getElem?_append_right (le_refl _)]
        simp
      have hset : (pre ++ p :: suf).set pre.length Slot.null
          = (pre ++ [Slot.null]) ++ suf := by
        simp [List.set_append]
      have hlen : (pre ++ [Slot.null]).length = pre.length + 1 := by simp
      have hrest : p ≠ Slot.indeterminate →
          ∃ i, i < k ∧ suf[i]? = some Slot.indeterminate := by
        intro hp
        obtain ⟨i, hi, hget⟩ := hi
        cases i with
        | zero =>
          simp only [List.getElem?_cons_zero, Option.some.injEq] at hget
          exact absurd hget hp
        | succ i => exact ⟨i, by omega, by simpa using hget⟩
      cases p with
      | indeterminate => simp only [bam_mates_realloc_loop, hb, hget]
      | null =>
        have hnext := ih (pre ++ [Slot.null]) suf
          { r with bams := some ((pre ++ [Slot.null]) ++ suf) }
          (tr ++ [MEv.bam_destroy1 Slot.null]) rfl (hrest (by simp))
        rw [hlen] at hnext
        simp only [bam_mates_realloc_loop, hb, hget, hset, hnext]
      | record id =>
        have hnext := ih (pre ++ [Slot.null]) suf
          { r with bams := some ((pre ++ [Slot.null]) ++ suf) }
          (tr ++ [MEv.bam_destroy1 (Slot.record id)]) rfl (hrest (by simp))
        rw [hlen] at hnext
        simp only [bam_mates_realloc_loop, hb, hget, hset, hnext]

/-- On a batch that holds `n` records the destroy loop runs to its end: it
destroys the held slots in order and leaves every slot NULL. -/
theorem bam_mates_realloc_loop_holds (pool : bam_mates_t) (hp : pool.holds) :
    bam_mates_realloc_loop pool.n.toNat 0 pool [] =
      some ({ pool with bams := pool.bams.map (fun a => List.replicate a.length Slot.null) },
            pool.slots.map MEv.bam_destroy1) := by
  obtain ⟨n, mated, bams⟩ := pool
  obtain ⟨_, hlen, hw⟩ := hp
  cases bams with
  | none =>
    simp only [bam_mates_t.slots, Option.getD_none, List.length_nil] at hlen
    simp [← hlen, bam_mates_realloc_loop, bam_mates_t.slots]
  | some a =>
    simp only [bam_mates_t.slots, Option.getD_some] at hlen hw
    have h := bam_mates_realloc_loop_spec a.length [] a
      { n := n, mated := mated, bams := some a } [] rfl (le_refl _) hw
    simp only [List.length_nil] at h
    simp [← hlen, h, bam_mates_t.slots]

/-- The slots that a resize to `n` leaves of a batch of `k` slots: the kept
ones are NULL, the added ones were never written. -/
theorem Realloc_nulls (bams : Option (List Slot)) (n : Nat) :
    Realloc (bams.map (fun a => List.replicate a.length Slot.null)) n =
      List.replicate (min n (bams.getD []).length) Slot.null
        ++ List.replicate (n - (bams.getD []).length) Slot.indeterminate := by
  cases bams with
  | none => simp [Realloc]
  | some a => simp [Realloc, List.take_replicate]

/-- The result of `bam_mates_realloc` on a batch that holds its records, for a
size that is not negative. -/
theorem bam_mates_realloc_holds (pool : bam_mates_t) (n mated : Int)
    (hp : pool.holds) (hn : 0 ≤ n) :
    ∃ bams ev, bam_mates_realloc pool n mated =
        some ({ n := n, mated := mated, bams := bams },
              pool.slots.map MEv.bam_destroy1 ++ [ev])
      ∧ bams.getD [] = List.replicate (min n.toNat pool.n.toNat) Slot.null
          ++ List.replicate (n.toNat - pool.n.toNat) Slot.indeterminate
      ∧ (n = 0 → bams = none) ∧ (n ≠ 0 → bams.isSome = true)
      ∧ destroyed [ev] = [] := by
  have hlen : (pool.bams.getD []).length = pool.n.toNat := hp.2.1
  unfold bam_mates_realloc
  rw [bam_mates_realloc_loop_holds pool hp]
  by_cases h0 : n = 0
  · subst h0
    exact ⟨none, MEv.Free_bams (pool.bams.map
      (fun a => List.replicate a.length Slot.null)).isSome, by simp, by simp,
      fun _ => rfl, fun h => absurd rfl h, rfl⟩
  · have hneg : ¬ n < 0 := not_lt.mpr hn
    refine ⟨some (Realloc (pool.bams.map (fun a => List.replicate a.length Slot.null))
      n.toNat), MEv.Realloc_bams n, by simp [h0, hneg], ?_, fun h => absurd h h0,
      fun _ => rfl, rfl⟩
    rw [Option.getD_some, Realloc_nulls, hlen]

/-- A batch whose slots have all been stored by its caller holds its records. -/
theorem fill_holds (n mated : Int) (bams : Option (List Slot)) (filled : List Slot)
    (hn : 0 ≤ n) (hsome : n ≠ 0 → bams.isSome = true)
    (hlen : filled.length = n.toNat) (hw : ∀ s, s ∈ filled → s ≠ Slot.indeterminate)
    (hnone : n = 0 → bams = none) :
    (bam_mates_t.fill { n := n, mated := mated, bams := bams } filled).holds
      ∧ (bam_mates_t.fill { n := n, mated := mated, bams := bams } filled).slots = filled := by
  by_cases h0 : n = 0
  · subst h0
    have hf : filled = [] := List.length_eq_zero.mp (by simpa using hlen)
    subst hf
    rw [hnone rfl]
    exact ⟨⟨le_refl _, rfl, by simp [bam_mates_t.fill, bam_mates_t.slots]⟩, rfl⟩
  · cases bams with
    | none => simp at hsome; exact absurd hsome h0
    | some a =>
      exact ⟨⟨hn, hlen, hw⟩, rfl⟩

/-- What one resize of a batch that holds its records does: it returns, its
`bam_destroy1` calls are the held slots, and it leaves `n` slots. -/
theorem bam_mates_realloc_basic (pool : bam_mates_t) (n m : Int)
    (hp : pool.holds) (hn : 0 ≤ n) :
    ∃ pool1 tr1, bam_mates_realloc pool n m = some (pool1, tr1)
      ∧ destroyed tr1 = pool.slots
      ∧ (destroyed tr1).length = pool.n.toNat
      ∧ pool1.n = n ∧ pool1.mated = m ∧ pool1.slots.length = n.toNat := by
  obtain ⟨bams, ev, h1, hslots, _, _, hev⟩ := bam_mates_realloc_holds pool n m hp hn
  have hd1 : destroyed (pool.slots.map MEv.bam_destroy1 ++ [ev]) = pool.slots := by
    rw [destroyed_append, destroyed_map, hev, List.append_nil]
  refine ⟨_, _, h1, hd1, by rw [hd1]; exact hp.2.1, rfl, rfl, ?_⟩
  show (bams.getD []).length = n.toNat
  rw [hslots]
  simp only [List.length_append, List.length_replicate]
  omega

/-- C1 as stated fails where the first resize grows the batch: a batch of two
records resized to three slots has a third slot that was never written, and a
second resize called straight after it hands that slot to `bam_destroy1`: it
has no defined result, so it neither releases exactly three slots nor leaves
the requested number. -/
theorem second_resize_after_growth_undefined :
    bam_mates_realloc
        { n := 2, mated := 1, bams := some [Slot.record 11, Slot.record 12] } 3 0
      = some ({ n := 3, mated := 0,
                bams := some [Slot.null, Slot.null, Slot.indeterminate] },
              [MEv.bam_destroy1 (Slot.record 11), MEv.bam_destroy1 (Slot.record 12),
               MEv.Realloc_bams 3])
      ∧ bam_mates_realloc
          { n := 3, mated := 0, bams := some [Slot.null, Slot.null, Slot.indeterminate] }
          1 0 = none := by
  decide

/-- C1, amended: on a batch that holds `n_prev >= 0` records (every slot
written), `bam_mates_realloc(pool, n, m)` with `n >= 0` returns; its
`bam_destroy1` calls are exactly the held slots `0 .. n_prev - 1`, each once and
in order; it leaves count field `n`, mated field `m` and `n` slots, of which the
kept ones are NULL and the added ones unwritten. Hence, once the caller has
written all `n` slots, a second resize to `n2 >= 0` destroys exactly those `n`
slots and leaves exactly `n2`; when the first resize added no slot the second
may follow it directly; when it added one, a second resize straight after it has
no defined result. -/
theorem bam_mates_realloc_releases_held (pool : bam_mates_t) (n m : Int)
    (hp : pool.holds) (hn : 0 ≤ n) :
    ∃ pool1 tr1, bam_mates_realloc pool n m = some (pool1, tr1)
      ∧ destroyed tr1 = pool.slots
      ∧ (destroyed tr1).length = pool.n.toNat
      ∧ pool1.n = n ∧ pool1.mated = m ∧ pool1.slots.length = n.toNat
      ∧ pool1.slots = List.replicate (min n.toNat pool.n.toNat) Slot.null
          ++ List.replicate (n.toNat - pool.n.toNat) Slot.indeterminate
      ∧ (∀ filled : List Slot, filled.length = n.toNat →
          (∀ s, s ∈ filled → s ≠ Slot.indeterminate) →
          ∀ n2 m2 : Int, 0 ≤ n2 →
            ∃ pool2 tr2, bam_mates_realloc (pool1.fill filled) n2 m2 = some (pool2, tr2)
              ∧ destroyed tr2 = filled
              ∧ (destroyed tr2).length = n.toNat
              ∧ pool2.n = n2 ∧ pool2.mated = m2 ∧ pool2.slots.length = n2.toNat)
      ∧ (n ≤ pool.n → ∀ n2 m2 : Int, 0 ≤ n2 →
            ∃ pool2 tr2, bam_mates_realloc pool1 n2 m2 = some (pool2, tr2)
              ∧ destroyed tr2 = pool1.slots
              ∧ (destroyed tr2).length = n.toNat
              ∧ pool2.n = n2 ∧ pool2.mated = m2 ∧ pool2.slots.length = n2.toNat)
      ∧ (pool.n < n → ∀ n2 m2 : Int, bam_mates_realloc pool1 n2 m2 = none) := by
  obtain ⟨bams, ev, h1, hslots, hnone, hsome, hev⟩ :=
    bam_mates_realloc_holds pool n m hp hn
  have hd1 : destroyed (pool.slots.map MEv.bam_destroy1 ++ [ev]) = pool.slots := by
    rw [destroyed_append, destroyed_map, hev, List.append_nil]
  have hlen1 : (bams.getD []).length = n.toNat := by
    rw [hslots]
    simp only [List.length_append, List.length_replicate]
    omega
  refine ⟨{ n := n, mated := m, bams := bams }, _, h1, hd1, by rw [hd1]; exact hp.2.1,
    rfl, rfl, hlen1, hslots, ?_, ?_, ?_⟩
  · intro filled hlen hw n2 m2 hn2
    obtain ⟨hholds, hfs⟩ := fill_holds n m bams filled hn hsome hlen hw hnone
    obtain ⟨pool2, tr2, h2, hd2, _, hn2', hm2, hl2⟩ :=
      bam_mates_realloc_basic _ n2 m2 hholds hn2
    exact ⟨pool2, tr2, h2, by rw [hd2, hfs], by rw [hd2, hfs]; exact hlen, hn2', hm2, hl2⟩
  · intro hle n2 m2 hn2
    have hsub : n.toNat - pool.n.toNat = 0 := by omega
    have hholds : ({ n := n, mated := m, bams := bams } : bam_mates_t).holds := by
      refine ⟨hn, hlen1, ?_⟩
      intro s hs
      have hs1 : s ∈ bams.getD [] := hs
      rw [hslots, hsub] at hs1
      simp only [List.replicate_zero, List.append_nil] at hs1
      rw [List.eq_of_mem_replicate hs1]
      simp
    obtain ⟨pool2, tr2, h2, hd2, hl, hn2', hm2, hl2⟩ :=
      bam_mates_realloc_basic _ n2 m2 hholds hn2
    exact ⟨pool2, tr2, h2, hd2, hl, hn2', hm2, hl2⟩
  · intro hlt n2 m2
    have hn0 : n ≠ 0 := by
      have := hp.1
      omega
    obtain ⟨a, ha⟩ := Option.isSome_iff_exists.mp (hsome hn0)
    subst ha
    rw [Option.getD_some] at hslots
    have hidx : a[pool.n.toNat]? = some Slot.indeterminate := by
      have h0 := hp.1
      rw [hslots, List.getElem?_append_right (by simp)]
      simp only [List.length_replicate]
      rw [List.getElem?_replicate]
      have h1 : pool.n.toNat - min n.toNat pool.n.toNat < n.toNat - pool.n.toNat := by
        omega
      simp [h1]
    have hloop := bam_mates_realloc_loop_unwritten n.toNat [] a
      { n := n, mated := m, bams := some a } [] rfl
      ⟨pool.n.toNat, by have := hp.1; omega, hidx⟩
    simp only [List.length_nil] at hloop
    simp only [bam_mates_realloc, hloop]

/-- C1 amended, at a batch of two records resized to three slots, written,
and resized again. -/
theorem bam_mates_realloc_releases_held_witness :
    (bam_mates_t.holds
        { n := 2, mated := 1, bams := some [Slot.record 11, Slot.record 12] })
      ∧ ∃ pool1 tr1,
          bam_mates_realloc
              { n := 2, mated := 1, bams := some [Slot.record 11, Slot.record 12] } 3 0
            = some (pool1, tr1)
          ∧ destroyed tr1 = [Slot.record 11, Slot.record 12]
          ∧ pool1.n = 3 ∧ pool1.mated = 0
          ∧ pool1.slots = [Slot.null, Slot.null, Slot.indeterminate]
          ∧ (∃ pool2 tr2,
              bam_mates_realloc
                  (pool1.fill [Slot.record 21, Slot.record 22, Slot.null]) 1 1
                = some (pool2, tr2)
              ∧ destroyed tr2 = [Slot.record 21, Slot.record 22, Slot.null]
              ∧ (destroyed tr2).length = 3
              ∧ pool2.n = 1 ∧ pool2.slots.length = 1)
          ∧ bam_mates_realloc pool1 1 1 = none := by
  refine ⟨by decide, ?_⟩
  obtain ⟨pool1, tr1, h1, hd, _, hn, hm, _, hslots, hfill, _, hgrow⟩ :=
    bam_mates_realloc_releases_held
      { n := 2, mated := 1, bams := some [Slot.record 11, Slot.record 12] } 3 0
      (by decide) (by decide)
  obtain ⟨pool2, tr2, h2, hd2, hl2, hn2, _, hs2⟩ :=
    hfill [Slot.record 21, Slot.record 22, Slot.null] rfl (by decide) 1 1 (by decide)
  exact ⟨pool1, tr1, h1, hd, hn, hm, hslots, ⟨pool2, tr2, h2, hd2, hl2, hn2, hs2⟩,
    hgrow (by decide) 1 1⟩

/-- C7 as stated fails: resizing a fresh batch to 0 with mated flag 1 leaves
`mated = 1`, which is not the `NA_INTEGER` of a batch made by `bam_mates_new`. -/
theorem fresh_batch_differs_after_resize_to_zero :
    (bam_mates_realloc bam_mates_new 0 1).map Prod.fst
        = some { n := 0, mated := 1, bams := none }
      ∧ (bam_mates_realloc bam_mates_new 0 1).map Prod.fst ≠ some bam_mates_new := by
  decide

/-- C7, amended: on a batch that holds its records, `bam_mates_realloc(pool, 0, m)`
returns, its last call is `Free(result->bams)`, and it leaves `bams = NULL` and
`n = 0`, the values `bam_mates_new` gives these two fields; the field `mated` is
`m`, so the batch equals a fresh one exactly when `m` is `NA_INTEGER`. -/
theorem bam_mates_realloc_zero (pool : bam_mates_t) (m : Int) (hp : pool.holds) :
    ∃ pool1 tr1, bam_mates_realloc pool 0 m = some (pool1, tr1)
      ∧ tr1.getLast? = some (MEv.Free_bams pool.bams.isSome)
      ∧ pool1.bams = none ∧ pool1.bams = bam_mates_new.bams
      ∧ pool1.n = 0 ∧ pool1.n = bam_mates_new.n
      ∧ pool1.mated = m
      ∧ (pool1 = bam_mates_new ↔ m = NA_INTEGER) := by
  unfold bam_mates_realloc
  rw [bam_mates_realloc_loop_holds pool hp]
  refine ⟨{ n := 0, mated := m, bams := none }, _, by simp; rfl, ?_, rfl, rfl, rfl, rfl,
    rfl, ?_⟩
  · cases h : pool.bams <;> simp
  · simp [bam_mates_new]

/-- C7 amended, at a batch of one record and mated flag `NA_INTEGER`. -/
theorem bam_mates_realloc_zero_witness :
    ∃ pool1 tr1,
      bam_mates_realloc { n := 1, mated := 1, bams := some [Slot.record 5] } 0 NA_INTEGER
        = some (pool1, tr1)
      ∧ tr1.getLast? = some (MEv.Free_bams true)
      ∧ pool1.bams = none ∧ pool1.bams = bam_mates_new.bams
      ∧ pool1.n = 0 ∧ pool1.n = bam_mates_new.n
      ∧ pool1.mated = NA_INTEGER
      ∧ (pool1 = bam_mates_new ↔ NA_INTEGER = NA_INTEGER) :=
  bam_mates_realloc_zero { n := 1, mated := 1, bams := some [Slot.record 5] }
    NA_INTEGER (by decide)

/-! ## Theorems: the two drivers -/

theorem yield_count_append (a b : List DEv) :
    yield_count (a ++ b) = yield_count a + yield_count b := by
  induction a with
  | nil => simp [yield_count]
  | cons e a ih =>
    have h : yield_count (a ++ b) = yield_count a + yield_count b := ih
    cases e
    all_goals simp only [List.cons_append, yield_count, List.append_eq, h]
    all_goals omega

theorem bam_mate_read_trace {φ σ : Type} (ops : BamIteratorOps φ σ) (fb : φ)
    (iter : bam_mate_iter_t σ) (mates : bam_mates_t) :
    (bam_mate_read ops fb iter mates).trace = [DEv.yield iter.b_iter.iter_done] := rfl

theorem bam_mate_read_ret {φ σ : Type} (ops : BamIteratorOps φ σ) (fb : φ)
    (iter : bam_mate_iter_t σ) (mates : bam_mates_t) :
    (bam_mate_read ops fb iter mates).ret = (bam_mate_read ops fb iter mates).mates.n := rfl

theorem nth_read_succ {φ σ : Type} (ops : BamIteratorOps φ σ) (j : Nat) (fb : φ)
    (iter : bam_mate_iter_t σ) (mates : bam_mates_t) :
    nth_read ops (j + 1) fb iter mates =
      nth_read ops j (bam_mate_read ops fb iter mates).fb
        (bam_mate_read ops fb iter mates).iter (bam_mate_read ops fb iter mates).mates := rfl

/-- The loop of `bam_fetch_mate` stops at the first read whose count is not
positive: with `k` positive reads before it and more than `k` units of fuel it
returns 0 and its events are `fetch_events`. -/
theorem bam_fetch_mate_loop_spec {φ σ δ : Type} (ops : BamIteratorOps φ σ)
    (func : bam_mates_t → δ → δ) (k : Nat) :
    ∀ (fb : φ) (iter : bam_mate_iter_t σ) (mates : bam_mates_t) (data : δ)
      (tr : List DEv) (fuel : Nat),
      (∀ j, j < k → 0 < (nth_read ops j fb iter mates).ret) →
      (nth_read ops k fb iter mates).ret ≤ 0 → k < fuel →
      ∃ res, bam_fetch_mate_loop ops func fuel fb iter mates data tr = some res
        ∧ res.n_rec = 0 ∧ res.trace = tr ++ fetch_events ops k fb iter mates := by
  induction k with
  | zero =>
    intro fb iter mates data tr fuel _ hstop hfuel
    obtain ⟨fuel, rfl⟩ : ∃ f, fuel = f + 1 := ⟨fuel - 1, by omega⟩
    have hstop1 : ¬ (bam_mate_read ops fb iter mates).ret > 0 := not_lt.mpr hstop
    simp [bam_fetch_mate_loop, hstop1, fetch_events]
  | succ k ih =>
    intro fb iter mates data tr fuel hpos hstop hfuel
    obtain ⟨fuel, rfl⟩ : ∃ f, fuel = f + 1 := ⟨fuel - 1, by omega⟩
    have h0 : (bam_mate_read ops fb iter mates).ret > 0 := hpos 0 (Nat.succ_pos k)
    obtain ⟨res, hres, hn, htr⟩ := ih (bam_mate_read ops fb iter mates).fb
      (bam_mate_read ops fb iter mates).iter (bam_mate_read ops fb iter mates).mates
      (func (bam_mate_read ops fb iter mates).mates data)
      (tr ++ (bam_mate_read ops fb iter mates).trace
        ++ [DEv.func (bam_mate_read ops fb iter mates).mates]) fuel
      (fun j hj => by
        have := hpos (j + 1) (by omega)
        rwa [nth_read_succ] at this)
      (by rwa [nth_read_succ] at hstop) (by omega)
    refine ⟨res, ?_, hn, ?_⟩
    · simp only [bam_fetch_mate_loop, h0, if_true]
      simpa using hres
    · rw [htr]
      simp [fetch_events]

theorem yield_count_fetch_events {φ σ : Type} (ops : BamIteratorOps φ σ) (k : Nat) :
    ∀ (fb : φ) (iter : bam_mate_iter_t σ) (mates : bam_mates_t),
      yield_count (fetch_events ops k fb iter mates) = k + 1 := by
  induction k with
  | zero =>
    intro fb iter mates
    simp [fetch_events, bam_mate_read_trace, yield_count]
  | succ k ih =>
    intro fb iter mates
    simp only [fetch_events, yield_count_append, ih, bam_mate_read_trace]
    simp [yield_count]
    omega

/-- C9: let the counts of the successive reads of the range iterator never
be negative up to a read `K` whose count is 0 (the reads eventually produce a
count of 0). Then `bam_fetch_mate`, given more than `K` units of fuel, returns;
its last call of `bam_mate_read` is read `k` for some `k <= K` (it has made
`k + 1` calls), and the value it returns equals the count of that last read,
which is 0. -/
theorem bam_fetch_mate_returns_last_count {φ σ δ : Type} (ops : BamIteratorOps φ σ)
    (func : bam_mates_t → δ → δ) (addr : Nat) (bf : φ) (idx : Option bam_index_t)
    (tid beg end_ : Int) (data : δ) (K fuel : Nat)
    (hnonneg : ∀ j, j < K →
      0 ≤ (nth_read ops j bf (bam_mate_range_iter_new ops addr idx tid beg end_)
            bam_mates_new).ret)
    (hzero : (nth_read ops K bf (bam_mate_range_iter_new ops addr idx tid beg end_)
            bam_mates_new).ret = 0)
    (hfuel : K < fuel) :
    ∃ res k, bam_fetch_mate ops fuel addr bf idx tid beg end_ data func = some res
      ∧ k ≤ K
      ∧ yield_count res.trace = k + 1
      ∧ res.n_rec = (nth_read ops k bf
          (bam_mate_range_iter_new ops addr idx tid beg end_) bam_mates_new).ret
      ∧ res.n_rec = 0 := by
  have hex : ∃ j, (nth_read ops j bf (bam_mate_range_iter_new ops addr idx tid beg end_)
      bam_mates_new).ret ≤ 0 := ⟨K, le_of_eq hzero⟩
  have hk : Nat.find hex ≤ K := Nat.find_min' hex (le_of_eq hzero)
  have hstop := Nat.find_spec hex
  have hpos : ∀ j, j < Nat.find hex →
      0 < (nth_read ops j bf (bam_mate_range_iter_new ops addr idx tid beg end_)
        bam_mates_new).ret := fun j hj => not_le.mp (Nat.find_min hex hj)
  have hlast : (nth_read ops (Nat.find hex) bf
      (bam_mate_range_iter_new ops addr idx tid beg end_) bam_mates_new).ret = 0 := by
    rcases Nat.lt_or_ge (Nat.find hex) K with hlt | hge
    · exact le_antisymm hstop (hnonneg _ hlt)
    · rw [le_antisymm hk hge]
      exact hzero
  obtain ⟨res, hres, hn, htr⟩ := bam_fetch_mate_loop_spec ops func (Nat.find hex) bf
    (bam_mate_range_iter_new ops addr idx tid beg end_) bam_mates_new data
    [DEv.BamRangeIterator_new] fuel hpos hstop (lt_of_le_of_lt hk hfuel)
  refine ⟨res, Nat.find hex, hres, hk, ?_, by rw [hn, hlast], hn⟩
  rw [htr, yield_count_append, yield_count_fetch_events]
  simp [yield_count]

/-- C9, at an iterator whose reads give the counts 2, 1, 0. -/
theorem bam_fetch_mate_returns_last_count_witness :
    ∃ res, bam_fetch_mate listOps 3 0 () none 0 0 100 (0 : Nat)
          (fun m d => d + m.n.toNat) = some res
      ∧ res.n_rec = 0 := by
  obtain ⟨res, _, h, _, _, _, hn⟩ :=
    bam_fetch_mate_returns_last_count listOps (fun m d => d + m.n.toNat) 0 () none
      0 0 100 (0 : Nat) 2 3 (by decide) (by decide) (by decide)
  exact ⟨res, h, hn⟩

/-- C8: every call of `samread_mate` makes exactly one `yield`, made on an
iterator whose `iter_done` has just been set to false, and returns the count
`n` of the batch that this `yield` filled. With an empty slot the iterator is a
new whole-file iterator, which is stored in the slot; with a filled slot no
iterator is created, the `yield` is made on the iterator of the slot, and the
slot keeps its pointer. -/
theorem samread_mate_single_yield {φ σ : Type} (ops : BamIteratorOps φ σ) (addr : Nat)
    (fb : φ) (bindex : Option bam_index_t) (iter_p : Option (bam_mate_iter_t σ))
    (mates : bam_mates_t) :
    yield_count (samread_mate ops addr fb bindex iter_p mates).trace = 1
      ∧ DEv.yield false ∈ (samread_mate ops addr fb bindex iter_p mates).trace
      ∧ (samread_mate ops addr fb bindex iter_p mates).ret
          = (samread_mate ops addr fb bindex iter_p mates).mates.n
      ∧ (iter_p = none →
          (samread_mate ops addr fb bindex iter_p mates).trace
              = [DEv.BamFileIterator_new, DEv.yield false]
            ∧ (samread_mate ops addr fb bindex iter_p mates).ret
              = (ops.yield fb { ops.BamFileIterator bindex with iter_done := false }
                  mates).2.2.n
            ∧ (samread_mate ops addr fb bindex iter_p mates).iter_p
              = some { addr := addr
                       b_iter := (ops.yield fb
                         { ops.BamFileIterator bindex with iter_done := false }
                         mates).2.1 })
      ∧ (∀ it, iter_p = some it →
          (samread_mate ops addr fb bindex iter_p mates).trace = [DEv.yield false]
            ∧ (samread_mate ops addr fb bindex iter_p mates).ret
              = (ops.yield fb { it.b_iter with iter_done := false } mates).2.2.n
            ∧ (samread_mate ops addr fb bindex iter_p mates).iter_p
              = some { addr := it.addr
                       b_iter := (ops.yield fb { it.b_iter with iter_done := false }
                         mates).2.1 }
            ∧ (samread_mate ops addr fb bindex iter_p mates).iter_p.map (·.addr)
              = iter_p.map (·.addr)) := by
  cases iter_p with
  | none =>
    refine ⟨by simp [samread_mate, bam_mate_read, yield_count],
      by simp [samread_mate, bam_mate_read], rfl, fun _ => ⟨rfl, rfl, rfl⟩, ?_⟩
    intro it h
    cases h
  | some it0 =>
    refine ⟨by simp [samread_mate, bam_mate_read, yield_count],
      by simp [samread_mate, bam_mate_read], rfl, fun h => (by cases h), ?_⟩
    intro it h
    cases h
    exact ⟨rfl, rfl, rfl, rfl⟩

/-- C8, at a filled slot whose iterator had been marked done: the call
resets the flag, yields once and returns the count 4 of the next batch. -/
theorem samread_mate_single_yield_witness :
    (samread_mate listOps 9 () none
        (some { addr := 3, b_iter := { iter_done := true, st := [4, 1] } })
        bam_mates_new).trace = [DEv.yield false]
      ∧ (samread_mate listOps 9 () none
        (some { addr := 3, b_iter := { iter_done := true, st := [4, 1] } })
        bam_mates_new).ret = 4
      ∧ (samread_mate listOps 9 () none
        (some { addr := 3, b_iter := { iter_done := true, st := [4, 1] } })
        bam_mates_new).iter_p.map (·.addr) = some 3 := by
  obtain ⟨htr, hret, _, haddr⟩ :=
    (samread_mate_single_yield listOps 9 () none
      (some { addr := 3, b_iter := { iter_done := true, st := [4, 1] } })
      bam_mates_new).2.2.2.2
      { addr := 3, b_iter := { iter_done := true, st := [4, 1] } } rfl
  exact ⟨htr, hret, haddr⟩

/-! ## Theorems: the BamFile handle -/

/-- After `_bamfile_close` the five owned references are NULL. -/
theorem bamfile_close_nulls (bfile : _BAM_FILE) :
    (_bamfile_close bfile).1 =
      { file := none, index := none, header := none, iter := none, pbuffer := none,
        pos0 := bfile.pos0, irange0 := bfile.irange0 } := rfl

/-- C2: for every handle state, `_bamfile_close` applied to the state it has
left gives that same state back and causes no event at all (no release, no
error); the state it leaves has `file`, `index`, `header`, `iter` and `pbuffer`
NULL; and the first application raises no error. The same holds for
`bamfile_close` on a BamFile external pointer: the second call returns normally,
leaves the pointer as it was and causes no event. -/
theorem bamfile_close_idempotent (bfile : _BAM_FILE) :
    _bamfile_close (_bamfile_close bfile).1 = ((_bamfile_close bfile).1, [])
      ∧ (_bamfile_close bfile).1.file = none
      ∧ (_bamfile_close bfile).1.index = none
      ∧ (_bamfile_close bfile).1.header = none
      ∧ (_bamfile_close bfile).1.iter = none
      ∧ (_bamfile_close bfile).1.pbuffer = none
      ∧ (∀ e, Ev.Rf_error e ∉ (_bamfile_close bfile).2)
      ∧ (bamfile_close { tag_ok := true, addr := some bfile }).res = Res.ok ()
      ∧ bamfile_close (bamfile_close { tag_ok := true, addr := some bfile }).ext
          = { ext := (bamfile_close { tag_ok := true, addr := some bfile }).ext
              trace := []
              res := Res.ok () } := by
  refine ⟨rfl, rfl, rfl, rfl, rfl, rfl, ?_, rfl, rfl⟩
  intro e
  obtain ⟨file, index, header, iter, pbuffer, pos0, irange0⟩ := bfile
  cases file <;> cases index <;> cases header <;> cases iter <;> cases pbuffer <;>
    simp [_bamfile_close]

/-- Seeking back to the offset told before a read undoes the read. -/
theorem seek_after_read (file : samfile_t) (header : Option bam_hdr_t) :
    _hts_utilities_seek (sam_read1 file header).file (_hts_utilities_tell file) = file := by
  obtain ⟨id, hd, od, fmt, items, pos⟩ := file
  simp only [sam_read1, _hts_utilities_seek, _hts_utilities_tell]
  cases h : items[pos]? with
  | none => simp
  | some it => cases it <;> simp

/-- The probe leaves the external pointer, the handle and the stream as they were. -/
theorem bamfile_isincomplete_ext (ext : SEXP) : (bamfile_isincomplete ext).ext = ext := by
  obtain ⟨tag_ok, addr⟩ := ext
  cases addr with
  | none => rfl
  | some bfile =>
    cases tag_ok with
    | false => rfl
    | true =>
      obtain ⟨file, index, header, iter, pbuffer, pos0, irange0⟩ := bfile
      cases file with
      | none => rfl
      | some file =>
        simp only [bamfile_isincomplete, _checkext, if_true]
        rw [seek_after_read]

theorem probes_ext (k : Nat) : ∀ ext : SEXP, probes k ext = ext := by
  induction k with
  | zero => intro ext; rfl
  | succ k ih => intro ext; rw [probes, bamfile_isincomplete_ext, ih]

/-- C3: for every external pointer, handle and stream position, after
`bamfile_isincomplete` the stream position is the position before the call (the
whole handle is as before), whatever the trial read gave; so `N` real reads
after any number `k` of probe calls give the same return codes and records, in
the same order, as `N` real reads without the probes. -/
theorem bamfile_isincomplete_nondestructive (ext : SEXP) :
    (bamfile_isincomplete ext).ext.tell = ext.tell
      ∧ (bamfile_isincomplete ext).ext = ext
      ∧ ∀ k N : Nat, (probes k ext).read_records N = ext.read_records N := by
  refine ⟨by rw [bamfile_isincomplete_ext], bamfile_isincomplete_ext ext, ?_⟩
  intro k N
  rw [probes_ext]

/-- A real read of a record moves the stream to the next position. -/
theorem sam_read1_advances (file : samfile_t) (header : Option bam_hdr_t) (b : bam1_t)
    (h : file.items[file.pos]? = some (Item.record b)) :
    (sam_read1 file header).file.pos = file.pos + 1
      ∧ (sam_read1 file header).bam = some b := by
  simp [sam_read1, h]

theorem record_code_nonneg (format : htsExactFormat) (b : bam1_t) :
    0 ≤ record_code format b := by
  unfold record_code
  cases format <;> simp <;> omega

theorem record_code_pos_iff (format : htsExactFormat) (b : bam1_t) :
    0 < record_code format b ↔ format ≠ htsExactFormat.sam := by
  unfold record_code
  cases format <;> simp <;> omega

/-- The trial read succeeds (its code is not negative) exactly when a record
stands at the read position. -/
theorem sam_read1_success_iff (file : samfile_t) (header : Option bam_hdr_t) :
    0 ≤ (sam_read1 file header).ret ↔ ∃ b, file.items[file.pos]? = some (Item.record b) := by
  unfold sam_read1
  cases h : file.items[file.pos]? with
  | none => simp
  | some it =>
    cases it with
    | record b =>
      simp only [Option.some.injEq, Item.record.injEq, exists_eq', iff_true]
      exact record_code_nonneg _ _
    | damaged => simp

/-- The code of the trial read is positive exactly when a record stands at
the read position and the stream is not SAM text. -/
theorem sam_read1_pos_iff (file : samfile_t) (header : Option bam_hdr_t) :
    0 < (sam_read1 file header).ret ↔
      (∃ b, file.items[file.pos]? = some (Item.record b))
        ∧ file.format ≠ htsExactFormat.sam := by
  unfold sam_read1
  cases h : file.items[file.pos]? with
  | none => simp
  | some it =>
    cases it with
    | record b =>
      simp only [Option.some.injEq, Item.record.injEq, exists_eq', true_and]
      exact record_code_pos_iff _ _
    | damaged => simp

/-- What the probe returns: when `_checkext` accepts the pointer, or the handle
is NULL, `bamfile_isincomplete` returns a logical `b` and raises no error. `b`
is false when the handle is NULL and when its stream is closed; with an open
stream `b` is true exactly when the trial `sam_read1` gives a positive code,
that is when a record stands at the read position of a stream that is not SAM
text; it is false at the end of the stream and whenever the trial read gives a
negative code. -/
theorem bamfile_isincomplete_result (ext : SEXP)
    (htag : ext.tag_ok = true ∨ ext.addr = none) :
    ∃ b : Bool, (bamfile_isincomplete ext).res = Res.ok b
      ∧ (∀ e, Ev.Rf_error e ∉ (bamfile_isincomplete ext).trace)
      ∧ (ext.addr = none → b = false)
      ∧ (∀ bfile, ext.addr = some bfile → bfile.file = none → b = false)
      ∧ (∀ bfile file, ext.addr = some bfile → bfile.file = some file →
          (b = true ↔ 0 < (sam_read1 file bfile.header).ret)
          ∧ (b = true ↔ (∃ r, file.items[file.pos]? = some (Item.record r))
                ∧ file.format ≠ htsExactFormat.sam)
          ∧ (file.items.length ≤ file.pos → b = false)
          ∧ ((sam_read1 file bfile.header).ret < 0 → b = false)) := by
  obtain ⟨tag_ok, addr⟩ := ext
  cases addr with
  | none =>
    refine ⟨false, rfl, by simp [bamfile_isincomplete], fun _ => rfl, ?_, ?_⟩
    · intro bfile h; cases h
    · intro bfile file h; cases h
  | some bfile =>
    have ht : tag_ok = true := by
      rcases htag with h | h
      · exact h
      · cases h
    subst ht
    obtain ⟨file, index, header, iter, pbuffer, pos0, irange0⟩ := bfile
    cases file with
    | none =>
      refine ⟨false, rfl, by simp [bamfile_isincomplete, _checkext], ?_, fun _ _ _ => rfl, ?_⟩
      · intro h; cases h
      · intro bfile file h1 h2
        cases h1
        cases h2
    | some file =>
      refine ⟨decide ((sam_read1 file header).ret > 0), rfl,
        by simp [bamfile_isincomplete, _checkext], ?_, ?_, ?_⟩
      · intro h; cases h
      · intro bfile h1 h2
        cases h1
        cases h2
      · intro bfile file1 h1 h2
        cases h1
        cases h2
        refine ⟨by simp, ?_, ?_, ?_⟩
        · rw [← sam_read1_pos_iff file header]
          simp
        · intro hlen
          have hnone : file.items[file.pos]? = none := List.getElem?_eq_none hlen
          simp [sam_read1, hnone]
        · intro hneg
          dsimp only at hneg
          simp only [gt_iff_lt, decide_eq_false_iff_not, not_lt]
          omega

/-- The probe at a BAM stream: true at a record, false at the end. -/
theorem bamfile_isincomplete_bam_example :
    (bamfile_isincomplete
        { tag_ok := true
          addr := some { Calloc_BAM_FILE with file := some exampleStream } }).res
        = Res.ok true
      ∧ (bamfile_isincomplete
        { tag_ok := true
          addr := some { Calloc_BAM_FILE with
            file := some { exampleStream with pos := 2 } } }).res = Res.ok false := by
  decide

/-- Open for read accepts a SAM text stream and returns a handle on it. -/
theorem bamfile_open_r_sam_example :
    (_bamfile_open_r envSam ["ex.sam"] [] "r").res =
      Res.ok { Calloc_BAM_FILE with
        file := some exampleSamStream, header := some { id := 11, n_targets := 1 } } := by
  decide

/-- C10, the failing input: a BamFile pointer whose open stream is SAM text
(a format `_bamfile_open_r` accepts) and stands at a record. The trial
`sam_read1` succeeds: it returns 0, has stored the record and has moved on.
The probe compares that code with `> 0` and answers FALSE, where the claim has
TRUE for a trial read that succeeds. -/
theorem bamfile_isincomplete_false_on_sam_record (bfile : _BAM_FILE) (file : samfile_t)
    (r : bam1_t) (hfile : bfile.file = some file)
    (hfmt : file.format = htsExactFormat.sam)
    (hrec : file.items[file.pos]? = some (Item.record r)) :
    (sam_read1 file bfile.header).ret = 0
      ∧ (sam_read1 file bfile.header).bam = some r
      ∧ (sam_read1 file bfile.header).file.pos = file.pos + 1
      ∧ (bamfile_isincomplete { tag_ok := true, addr := some bfile }).res
          = Res.ok false := by
  obtain ⟨f, index, header, iter, pbuffer, pos0, irange0⟩ := bfile
  cases hfile
  have hret : (sam_read1 file header).ret = 0 := by
    simp [sam_read1, hrec, hfmt, record_code]
  refine ⟨hret, by simp [sam_read1, hrec], by simp [sam_read1, hrec], ?_⟩
  simp only [bamfile_isincomplete, _checkext, if_true]
  simp [hret]

/-- C10, at `exampleSamStream`, positioned at its first record. -/
theorem bamfile_isincomplete_false_on_sam_record_witness :
    (sam_read1 exampleSamStream none).ret = 0
      ∧ (sam_read1 exampleSamStream none).bam = some { id := 7, block_len := 36 }
      ∧ (sam_read1 exampleSamStream none).file.pos = 1
      ∧ (bamfile_isincomplete
          { tag_ok := true
            addr := some { Calloc_BAM_FILE with file := some exampleSamStream } }).res
          = Res.ok false :=
  bamfile_isincomplete_false_on_sam_record
    { Calloc_BAM_FILE with file := some exampleSamStream } exampleSamStream
    { id := 7, block_len := 36 } rfl rfl rfl

/-- `_bam_tryopen` never returns NULL: where `samopen` gives NULL it raises. -/
theorem bam_tryopen_not_null (env : Env) (filename filemode : String) :
    (_bam_tryopen env filename filemode).res ≠ Res.ok none := by
  unfold _bam_tryopen
  cases env.samopen filename filemode with
  | none => simp
  | some sfile => cases h : sfile.header <;> simp [h]

/-- `_bam_tryindexload` never returns NULL: where both loaders give NULL it
raises, so the test `NULL == bfile->index` of its caller is never true. -/
theorem bam_tryindexload_not_null (env : Env) (file : Option String) (indexname : String) :
    (_bam_tryindexload env file indexname).res ≠ Res.ok none := by
  unfold _bam_tryindexload
  cases env.bam_index_load indexname with
  | some index => simp
  | none => cases h : env.hts_idx_load2 file indexname <;> simp [h]

/-- Open for read, `samopen` gives NULL: `_bam_tryopen` raises with the handle
block still allocated. -/
theorem bamfile_open_r_tryopen_failure (env : Env) (cfile filemode : String)
    (fs indexname : List String) (hopen : env.samopen cfile filemode = none) :
    _bamfile_open_r env (cfile :: fs) indexname filemode =
      { trace := [Ev.Calloc_bfile, Ev.samopen cfile filemode none,
                  Ev.Rf_error Err.failed_to_open_SAM_BAM_file]
        res := Res.Rf_error Err.failed_to_open_SAM_BAM_file } := by
  simp [_bamfile_open_r, _bam_tryopen, hopen]

/-- Open for read, header missing or without targets: the stream is closed,
the header destroyed and the handle freed before the error. -/
theorem bamfile_open_r_header_failure (env : Env) (cfile filemode : String)
    (fs indexname : List String) (file : samfile_t) (h0 : bam_hdr_t)
    (hopen : env.samopen cfile filemode = some file) (hfield : file.header = some h0)
    (hmiss : file.on_disk = none ∨ ∃ h, file.on_disk = some h ∧ h.n_targets = 0) :
    _bamfile_open_r env (cfile :: fs) indexname filemode =
      { trace := [Ev.Calloc_bfile, Ev.samopen cfile filemode (some file.id),
                  Ev.sam_hdr_read file.id (file.on_disk.map (·.id)),
                  Ev.sam_close file.id, Ev.bam_hdr_destroy (file.on_disk.map (·.id)),
                  Ev.Free_bfile, Ev.Rf_error Err.header_missing_or_empty]
        res := Res.Rf_error Err.header_missing_or_empty } := by
  rcases hmiss with hd | ⟨h, hd, hn⟩
  · simp [_bamfile_open_r, _bam_tryopen, hopen, hfield, hd]
  · simp [_bamfile_open_r, _bam_tryopen, hopen, hfield, hd, hn]

/-- Open for read, format not sam, bam or cram: the stream is closed, the
header destroyed and the handle freed before the error. -/
theorem bamfile_open_r_format_failure (env : Env) (cfile filemode : String)
    (fs indexname : List String) (file : samfile_t) (h0 h : bam_hdr_t)
    (hopen : env.samopen cfile filemode = some file) (hfield : file.header = some h0)
    (hdisk : file.on_disk = some h) (hn : h.n_targets ≠ 0)
    (hfmt : file.format ≠ htsExactFormat.sam ∧ file.format ≠ htsExactFormat.bam
      ∧ file.format ≠ htsExactFormat.cram) :
    _bamfile_open_r env (cfile :: fs) indexname filemode =
      { trace := [Ev.Calloc_bfile, Ev.samopen cfile filemode (some file.id),
                  Ev.sam_hdr_read file.id (some h.id),
                  Ev.sam_close file.id, Ev.bam_hdr_destroy (some h.id),
                  Ev.Free_bfile, Ev.Rf_error Err.not_a_BAM_file]
        res := Res.Rf_error Err.not_a_BAM_file } := by
  simp [_bamfile_open_r, _bam_tryopen, hopen, hfield, hdisk, hn, hfmt]

/-- C4, the failing path: the stream opens, its header has targets, its
format is accepted, and neither `bam_index_load` nor `hts_idx_load2` loads the
index. `_bam_tryindexload` then raises "failed to load BAM index" itself: the
run ends in that error with the stream not closed, the header not destroyed and
the handle not freed. -/
theorem bamfile_open_r_index_failure_leaks (env : Env) (cfile cindex filemode : String)
    (fs ixs : List String) (file : samfile_t) (h0 h : bam_hdr_t)
    (hopen : env.samopen cfile filemode = some file) (hfield : file.header = some h0)
    (hdisk : file.on_disk = some h) (hn : h.n_targets ≠ 0)
    (hfmt : file.format = htsExactFormat.sam ∨ file.format = htsExactFormat.bam
      ∨ file.format = htsExactFormat.cram)
    (hload : env.bam_index_load cindex = none)
    (hload2 : env.hts_idx_load2 (some cfile) cindex = none) :
    _bamfile_open_r env (cfile :: fs) (cindex :: ixs) filemode =
        { trace := [Ev.Calloc_bfile, Ev.samopen cfile filemode (some file.id),
                    Ev.sam_hdr_read file.id (some h.id),
                    Ev.bam_index_load cindex none, Ev.hts_idx_load2 cindex none,
                    Ev.Rf_error Err.failed_to_load_BAM_index]
          res := Res.Rf_error Err.failed_to_load_BAM_index }
      ∧ closes_stream file.id
          (_bamfile_open_r env (cfile :: fs) (cindex :: ixs) filemode).trace = false
      ∧ destroys_header h.id
          (_bamfile_open_r env (cfile :: fs) (cindex :: ixs) filemode).trace = false
      ∧ frees_bfile
          (_bamfile_open_r env (cfile :: fs) (cindex :: ixs) filemode).trace = false := by
  have hrun : _bamfile_open_r env (cfile :: fs) (cindex :: ixs) filemode =
      { trace := [Ev.Calloc_bfile, Ev.samopen cfile filemode (some file.id),
                  Ev.sam_hdr_read file.id (some h.id),
                  Ev.bam_index_load cindex none, Ev.hts_idx_load2 cindex none,
                  Ev.Rf_error Err.failed_to_load_BAM_index]
        res := Res.Rf_error Err.failed_to_load_BAM_index } := by
    rcases hfmt with hf | hf | hf <;>
      simp [_bamfile_open_r, _bam_tryopen, _bam_tryindexload, hopen, hfield, hdisk, hn,
        hf, hload, hload2]
  refine ⟨hrun, ?_, ?_, ?_⟩ <;> rw [hrun] <;>
    simp [closes_stream, destroys_header, frees_bfile]

/-- C4, at `exampleStream` with an index that cannot be loaded. -/
theorem bamfile_open_r_index_failure_leaks_witness :
    _bamfile_open_r envNoIndex ["ex.bam"] ["ex.bam.bai"] "r" =
        { trace := [Ev.Calloc_bfile, Ev.samopen "ex.bam" "r" (some 1),
                    Ev.sam_hdr_read 1 (some 11),
                    Ev.bam_index_load "ex.bam.bai" none,
                    Ev.hts_idx_load2 "ex.bam.bai" none,
                    Ev.Rf_error Err.failed_to_load_BAM_index]
          res := Res.Rf_error Err.failed_to_load_BAM_index }
      ∧ closes_stream 1
          (_bamfile_open_r envNoIndex ["ex.bam"] ["ex.bam.bai"] "r").trace = false
      ∧ destroys_header 11
          (_bamfile_open_r envNoIndex ["ex.bam"] ["ex.bam.bai"] "r").trace = false
      ∧ frees_bfile
          (_bamfile_open_r envNoIndex ["ex.bam"] ["ex.bam.bai"] "r").trace = false :=
  bamfile_open_r_index_failure_leaks envNoIndex "ex.bam" "ex.bam.bai" "r" [] []
    exampleStream { id := 10, n_targets := 1 } { id := 11, n_targets := 1 }
    rfl rfl rfl (by decide) (Or.inr (Or.inl rfl)) rfl rfl

/-- Open for write: the template stream is closed right after its header is
read, on every path that reads it. -/
theorem bamfile_open_w_closes_template (env : Env) (file0 cfile1 : String)
    (fs : List String) (fin : samfile_t) (h0 : bam_hdr_t)
    (hin : env.samopen cfile1 "r" = some fin) (hfield : fin.header = some h0) :
    ∃ rest, (_bamfile_open_w env file0 (cfile1 :: fs)).trace =
      [Ev.samopen cfile1 "r" (some fin.id),
       Ev.sam_hdr_read fin.id (fin.on_disk.map (·.id)), Ev.sam_close fin.id] ++ rest := by
  have htry : _bam_tryopen env cfile1 "r" =
      { trace := [Ev.samopen cfile1 "r" (some fin.id)], res := Res.ok (some fin) } := by
    simp [_bam_tryopen, hin, hfield]
  simp only [_bamfile_open_w, htry]
  rcases hout : _bam_tryopen env file0 "wb" with ⟨t2, r2⟩
  cases r2 with
  | Rf_error e => exact ⟨t2, by simp⟩
  | undefined => exact ⟨t2, by simp⟩
  | ok v =>
    cases v with
    | none => exact ⟨_, by simp; rfl⟩
    | some fout =>
      by_cases hw : env.sam_hdr_write fout fin.on_disk < 0
      · exact ⟨_, by simp [hw]; rfl⟩
      · exact ⟨_, by simp [hw]; rfl⟩

/-- Open for write, writing the header fails: the header is destroyed and the
output stream closed before the error. -/
theorem bamfile_open_w_write_failure (env : Env) (file0 cfile1 : String)
    (fs : List String) (fin fout : samfile_t) (h0 h1 : bam_hdr_t)
    (hin : env.samopen cfile1 "r" = some fin) (hfield : fin.header = some h0)
    (hout : env.samopen file0 "wb" = some fout) (hfield1 : fout.header = some h1)
    (hw : env.sam_hdr_write fout fin.on_disk < 0) :
    _bamfile_open_w env file0 (cfile1 :: fs) =
      { trace := [Ev.samopen cfile1 "r" (some fin.id),
                  Ev.sam_hdr_read fin.id (fin.on_disk.map (·.id)), Ev.sam_close fin.id,
                  Ev.samopen file0 "wb" (some fout.id),
                  Ev.sam_hdr_write fout.id (fin.on_disk.map (·.id)),
                  Ev.bam_hdr_destroy (fin.on_disk.map (·.id)), Ev.sam_close fout.id,
                  Ev.Rf_error Err.failed_to_write_header]
        res := Res.Rf_error Err.failed_to_write_header } := by
  simp [_bamfile_open_w, _bam_tryopen, hin, hfield, hout, hfield1, hw]

/-- C6, the failing path: the template opens and its header `h` is read, then
`samopen` cannot open the output. `_bam_tryopen` then raises "failed to open
SAM/BAM file" itself: the run ends in that error and its trace has no
`bam_hdr_destroy` of `h`. The template stream is closed right after the header
is read. -/
theorem bamfile_open_w_output_failure_leaks (env : Env) (file0 cfile1 : String)
    (fs : List String) (fin : samfile_t) (h0 h : bam_hdr_t)
    (hin : env.samopen cfile1 "r" = some fin) (hfield : fin.header = some h0)
    (hdisk : fin.on_disk = some h)
    (hout : env.samopen file0 "wb" = none) :
    _bamfile_open_w env file0 (cfile1 :: fs) =
        { trace := [Ev.samopen cfile1 "r" (some fin.id),
                    Ev.sam_hdr_read fin.id (some h.id), Ev.sam_close fin.id,
                    Ev.samopen file0 "wb" none,
                    Ev.Rf_error Err.failed_to_open_SAM_BAM_file]
          res := Res.Rf_error Err.failed_to_open_SAM_BAM_file }
      ∧ destroys_header h.id (_bamfile_open_w env file0 (cfile1 :: fs)).trace = false := by
  have hrun : _bamfile_open_w env file0 (cfile1 :: fs) =
      { trace := [Ev.samopen cfile1 "r" (some fin.id),
                  Ev.sam_hdr_read fin.id (some h.id), Ev.sam_close fin.id,
                  Ev.samopen file0 "wb" none,
                  Ev.Rf_error Err.failed_to_open_SAM_BAM_file]
        res := Res.Rf_error Err.failed_to_open_SAM_BAM_file } := by
    simp [_bamfile_open_w, _bam_tryopen, hin, hfield, hdisk, hout]
  exact ⟨hrun, by rw [hrun]; simp [destroys_header]⟩

/-- C6, at a template that opens as `exampleStream` and an output that cannot
be opened. -/
theorem bamfile_open_w_output_failure_leaks_witness :
    _bamfile_open_w envNoOutput "out.bam" ["ex.bam"] =
        { trace := [Ev.samopen "ex.bam" "r" (some 1),
                    Ev.sam_hdr_read 1 (some 11), Ev.sam_close 1,
                    Ev.samopen "out.bam" "wb" none,
                    Ev.Rf_error Err.failed_to_open_SAM_BAM_file]
          res := Res.Rf_error Err.failed_to_open_SAM_BAM_file }
      ∧ destroys_header 11 (_bamfile_open_w envNoOutput "out.bam" ["ex.bam"]).trace = false :=
  bamfile_open_w_output_failure_leaks envNoOutput "out.bam" "ex.bam" []
    exampleStream { id := 10, n_targets := 1 } { id := 11, n_targets := 1 }
    rfl rfl rfl (by decide)

/-- The write-failure path at a concrete file system: header 11 and output
stream 2 are both released before the error. -/
theorem bamfile_open_w_write_failure_example :
    _bamfile_open_w envNoWrite "out.bam" ["ex.bam"] =
      { trace := [Ev.samopen "ex.bam" "r" (some 1), Ev.sam_hdr_read 1 (some 11),
                  Ev.sam_close 1, Ev.samopen "out.bam" "wb" (some 2),
                  Ev.sam_hdr_write 2 (some 11), Ev.bam_hdr_destroy (some 11),
                  Ev.sam_close 2, Ev.Rf_error Err.failed_to_write_header]
        res := Res.Rf_error Err.failed_to_write_header } := by
  decide

/-- Three probes on `exampleStream`, then two real reads: the reads give the
two records of the stream, first to last. -/
theorem probes_then_reads_example :
    (probes 3 { tag_ok := true,
                addr := some { Calloc_BAM_FILE with file := some exampleStream } }).read_records 2
      = [(40, some { id := 7, block_len := 36 }), (44, some { id := 8, block_len := 40 })] := by
  decide

end Rsamtools
